import Mathlib

set_option maxHeartbeats 1000000

/-!
Shallow embedding of the nv_engine AI-powered malware detector
(src/backend/ai_powered_detector.py): the Ollama response parser with its
fallback pass, the Model Client error classification, the signal-fusion
verdict calculator, the TFLite classifier adapter, the admission gate,
and the comprehensive-scan orchestration with its statistics counters.

Python strings are modelled as lists of characters; Python floats as
rationals (all score arithmetic in the source is max/compare over exactly
representable constants, plus a multiplication by zero, so the rational
semantics coincides with the float semantics).  Effectful collaborators
(file system, HTTP backend, the TFLite interpreter) are modelled as
explicit oracle inputs.  Logging, timestamps, content hashing and the
recommendation-text generator are side channels not referenced by any
claim and are omitted.
-/

abbrev Str := List Char

/-- The whitespace characters removed by Python str.strip(). -/
def isPySpace (c : Char) : Bool :=
  c = ' ' || c = '\t' || c = '\n' || c = '\r' || c = '\x0b' || c = '\x0c'

/-- Python s.strip(): remove leading and trailing whitespace. -/
def pyStrip (s : Str) : Str :=
  ((s.dropWhile isPySpace).reverse.dropWhile isPySpace).reverse

/-- Python s.upper() (ASCII, as used by the detector). -/
def toUpperStr (s : Str) : Str := s.map Char.toUpper

/-- Python s.lower() (ASCII, as used by the detector). -/
def toLowerStr (s : Str) : Str := s.map Char.toLower

/-- Python s.split(sep) for a one-character separator: keeps empty pieces,
returns one (empty) piece on empty input. -/
def splitOnChar (sep : Char) : Str → List Str
  | [] => [[]]
  | c :: rest =>
    if c = sep then [] :: splitOnChar sep rest
    else
      match splitOnChar sep rest with
      | [] => [[c]]
      | s :: ss => (c :: s) :: ss

/-- Python s.startswith(p). -/
def startsWithStr : Str → Str → Bool
  | _, [] => true
  | [], _ :: _ => false
  | c :: s, p :: ps => c = p && startsWithStr s ps

/-- Python s.find(sub): character index of the first occurrence, if any. -/
def findSub (needle : Str) : Str → Option Nat
  | [] => if startsWithStr [] needle then some 0 else none
  | c :: rest =>
    if startsWithStr (c :: rest) needle then some 0
    else (findSub needle rest).map (· + 1)

/-- Python (sub in s). -/
def containsSub (needle hay : Str) : Bool := (findSub needle hay).isSome

/-- Python sep.join(pieces). -/
def joinSep (sep : Str) : List Str → Str
  | [] => []
  | [s] => s
  | s :: rest => s ++ sep ++ joinSep sep rest

/-- Convenience: a list of Lean string literals as character lists. -/
def strs (l : List String) : List Str := l.map String.toList

/-! ## Text Response Parser (OllamaClient.parse_ollama_response, lines 161-244) -/

/-- The five result fields the section scanner can write. -/
inductive SectionKey
  | threat | indicators | aiGen | expl | recomm
deriving DecidableEq

/-- The dict built by parse_ollama_response (lines 162-171). -/
structure ParseResult where
  threat_level : Str
  malicious_indicators : List Str
  ai_generated : Str
  explanation : Str
  recommendation : Str
  raw_response : Str
  explanation_is_fallback : Bool
  parsing_complete : Bool
deriving DecidableEq

/-- Initial result dict (lines 162-171). -/
def initResult (text : Str) : ParseResult :=
  { threat_level := "UNKNOWN".toList
    malicious_indicators := []
    ai_generated := "UNKNOWN".toList
    explanation := []
    recommendation := []
    raw_response := text
    explanation_is_fallback := false
    parsing_complete := false }

/-- section_keywords dict (lines 180-186), in source order. -/
def section_keywords : List (Str × SectionKey) :=
  [("THREAT_LEVEL:".toList, SectionKey.threat),
   ("MALICIOUS_INDICATORS:".toList, SectionKey.indicators),
   ("AI_GENERATED:".toList, SectionKey.aiGen),
   ("EXPLANATION:".toList, SectionKey.expl),
   ("RECOMMENDATION:".toList, SectionKey.recomm)]

/-- Finalizing an active section (lines 198-204 and 227-232): join the
accumulated lines with single spaces, strip; the indicator list is split
on commas with empties dropped. -/
def finalizeSection (r : ParseResult) (key : SectionKey) (acc : List Str) : ParseResult :=
  let content := pyStrip (joinSep [' '] acc)
  match key with
  | SectionKey.indicators =>
      { r with malicious_indicators :=
          ((splitOnChar ',' content).map pyStrip).filter (fun i => i ≠ []) }
  | SectionKey.threat => { r with threat_level := content }
  | SectionKey.aiGen => { r with ai_generated := content }
  | SectionKey.expl => { r with explanation := content }
  | SectionKey.recomm => { r with recommendation := content }

/-- Case-insensitive prefix test of a stripped line against the keyword
table, first match wins (lines 194-195). -/
def findKeyword (lineStripped : Str) : Option (Str × SectionKey) :=
  section_keywords.find?
    (fun p => startsWithStr (toUpperStr lineStripped) (toUpperStr p.1))

/-- The line loop of the primary section scanner (lines 190-232). -/
def parseLoop : List Str → Option SectionKey → List Str → ParseResult → ParseResult
  | [], active, acc, r =>
    match active with
    | some key => if acc ≠ [] then finalizeSection r key acc else r
    | none => r
  | line :: rest, active, acc, r =>
    let ls := pyStrip line
    match findKeyword ls with
    | some (kw, key) =>
      let r1 :=
        match active with
        | some k => if acc ≠ [] then finalizeSection r k acc else r
        | none => r
      let contentOnLine := pyStrip (ls.drop kw.length)
      let acc1 := if contentOnLine ≠ [] then [contentOnLine] else []
      parseLoop rest (some key) acc1 r1
    | none =>
      match active with
      | some _ => parseLoop rest active (acc ++ [ls]) r
      | none => parseLoop rest none acc r

/-- The primary pass of parse_ollama_response: the section scanner followed
by the threat-level uppercasing (lines 176-236). -/
def primaryParse (text : Str) : ParseResult :=
  let r := parseLoop (splitOnChar '\n' text) none [] (initResult text)
  { r with threat_level := toUpperStr r.threat_level }

/-! ## Fallback parser (OllamaClient._fallback_parse, lines 246-303) -/

/-- explanation_keywords (line 252). -/
def explanation_keywords : List Str :=
  strs ["explanation:", "analysis:", "detailed analysis:", "summary:"]

/-- next_section_keywords (line 260). -/
def next_section_keywords : List Str :=
  strs ["recommendation:", "threat_level:", "malicious_indicators:", "ai_generated:"]

/-- The lenient keyword search of the fallback explanation pass
(lines 255-271): for each keyword in order, find its first occurrence in
the lowercased text, take the stripped text after it up to the earliest
following next-section keyword, and accept it when its stripped length
exceeds 20 characters; otherwise try the next keyword. -/
def tryExplKeywords (text : Str) : List Str → Option Str
  | [] => none
  | kw :: rest =>
    match findSub kw (toLowerStr text) with
    | none => tryExplKeywords text rest
    | some startIndex =>
      let explanationContent := pyStrip (text.drop (startIndex + kw.length))
      let minNextSectionIndex :=
        next_section_keywords.foldl
          (fun m nextKey =>
            match findSub nextKey (toLowerStr explanationContent) with
            | some i => min m i
            | none => m)
          explanationContent.length
      let found := pyStrip (explanationContent.take minNextSectionIndex)
      if found.length > 20 then some found else tryExplKeywords text rest

/-- Prompt-echo sentences skipped by the sentence collector (lines 279-281). -/
def skipSentence (s : Str) : Bool :=
  startsWithStr (toLowerStr (pyStrip s)) "look for these malicious behaviors".toList ||
  startsWithStr (toLowerStr (pyStrip s)) "look for these ai-generated patterns".toList

/-- The sentence collector of the fallback explanation pass (lines 274-286):
accumulate stripped sentences longer than 15 characters, each followed by
a period and a space, stopping once five have been collected; skipped
sentences bypass the stop check, as in the source. -/
def collectSentences : List Str → Nat → Str
  | [], _ => []
  | s :: rest, count =>
    if skipSentence s then collectSentences rest count
    else if (pyStrip s).length > 15 then
      (pyStrip s ++ ('.' :: ' ' :: [])) ++
        (if count + 1 ≥ 5 then [] else collectSentences rest (count + 1))
    else if count ≥ 5 then [] else collectSentences rest count

/-- Fallback explanation recovery (lines 250-289), applied only when the
explanation is still empty. -/
def fallbackExplanationPass (text : Str) (r : ParseResult) : ParseResult :=
  if r.explanation = [] then
    match tryExplKeywords text explanation_keywords with
    | some found => { r with explanation := found, explanation_is_fallback := true }
    | none =>
      let temp := collectSentences (splitOnChar '.' text) 0
      if temp ≠ [] then
        { r with explanation := pyStrip temp, explanation_is_fallback := true }
      else r
  else r

/-- Fallback threat-level keyword families (lines 292-296), applied only
when the threat level is still UNKNOWN. -/
def fallbackThreatPass (textLower : Str) (r : ParseResult) : ParseResult :=
  if r.threat_level = "UNKNOWN".toList then
    if (strs ["critical", "severe", "dangerous"]).any (fun w => containsSub w textLower) then
      { r with threat_level := "CRITICAL".toList }
    else if (strs ["high", "malicious", "harmful"]).any (fun w => containsSub w textLower) then
      { r with threat_level := "HIGH".toList }
    else if (strs ["medium", "suspicious", "concerning"]).any (fun w => containsSub w textLower) then
      { r with threat_level := "MEDIUM".toList }
    else if (strs ["low", "minor", "unlikely", "clean", "safe", "benign"]).any (fun w => containsSub w textLower) then
      { r with threat_level := "LOW".toList }
    else r
  else r

/-- Fallback AI-generated classification (lines 298-301), applied only when
that field is still UNKNOWN. -/
def fallbackAiGenPass (textLower : Str) (r : ParseResult) : ParseResult :=
  if r.ai_generated = "UNKNOWN".toList then
    if (strs ["ai generated", "ai-generated", "generated by ai"]).any
        (fun w => containsSub w textLower) then
      if (strs ["yes", "likely", "probably"]).any (fun w => containsSub w textLower) then
        { r with ai_generated := "YES (likely)".toList }
      else if (strs ["no", "unlikely", "not"]).any (fun w => containsSub w textLower) then
        { r with ai_generated := "NO".toList }
      else r
    else r
  else r

/-- OllamaClient._fallback_parse (lines 246-303). -/
def fallback_parse (text : Str) (r : ParseResult) : ParseResult :=
  fallbackAiGenPass (toLowerStr text)
    (fallbackThreatPass (toLowerStr text) (fallbackExplanationPass text r))

/-- OllamaClient.parse_ollama_response (lines 161-244): empty input returns
the initial dict; otherwise the primary pass runs, parsing_complete is set
exactly when the explanation is non-empty and the threat level is not
UNKNOWN, and otherwise the fallback pass augments the partial result. -/
def parse_ollama_response (text : Str) : ParseResult :=
  if text = [] then initResult text
  else
    let r := primaryParse text
    if r.explanation ≠ [] ∧ r.threat_level ≠ "UNKNOWN".toList then
      { r with parsing_complete := true }
    else fallback_parse text r

/-! ## Model Client (OllamaClient.analyze_code, lines 86-159) -/

/-- The dict returned by analyze_code: the parse result plus the error and
elapsed-time bookkeeping of the three failure paths. -/
structure AnalyzeResult where
  error : Option Str
  threat_level : Str
  malicious_indicators : List Str
  ai_generated : Str
  explanation : Str
  recommendation : Str
  response_time : ℚ
  explanation_is_fallback : Bool
  parsing_complete : Bool
deriving DecidableEq

/-- Outcome of the single HTTP exchange with the Ollama backend, the
effectful part of analyze_code: a 200 response with a body, a non-200
status (rendered into the error string), a connection failure, or any
other exception. -/
inductive OllamaOutcome
  | success (body : Str) (elapsed : ℚ)
  | badStatus (status : Str) (elapsed : ℚ)
  | connError
  | otherExc (msg : Str) (elapsed : ℚ)
deriving DecidableEq

/-- OllamaClient.analyze_code result classification (lines 144-159). -/
def analyze_code : OllamaOutcome → AnalyzeResult
  | OllamaOutcome.success body elapsed =>
    let p := parse_ollama_response body
    { error := none, threat_level := p.threat_level,
      malicious_indicators := p.malicious_indicators,
      ai_generated := p.ai_generated, explanation := p.explanation,
      recommendation := p.recommendation, response_time := elapsed,
      explanation_is_fallback := p.explanation_is_fallback,
      parsing_complete := p.parsing_complete }
  | OllamaOutcome.badStatus status elapsed =>
    { error := some ("Ollama API error: ".toList ++ status),
      threat_level := "UNKNOWN".toList, malicious_indicators := [],
      ai_generated := "UNKNOWN".toList,
      explanation := "Failed to analyze with Ollama".toList,
      recommendation := [], response_time := elapsed,
      explanation_is_fallback := false, parsing_complete := false }
  | OllamaOutcome.connError =>
    { error := some "Cannot connect to Ollama server".toList,
      threat_level := "UNKNOWN".toList, malicious_indicators := [],
      ai_generated := "UNKNOWN".toList,
      explanation := "Connection failed - is Ollama running?".toList,
      recommendation := [], response_time := 0,
      explanation_is_fallback := false, parsing_complete := false }
  | OllamaOutcome.otherExc msg elapsed =>
    { error := some msg, threat_level := "UNKNOWN".toList,
      malicious_indicators := [], ai_generated := "UNKNOWN".toList,
      explanation := ("Error during analysis: ".toList ++ msg),
      recommendation := [], response_time := elapsed,
      explanation_is_fallback := false, parsing_complete := false }

/-! ## Signal Fusion (RealTimeMalwareDetector._calculate_final_verdict,
lines 515-545) -/

/-- YARA_RULE_WEIGHTS dict lookup with default 0.0 (lines 515-521, 528). -/
def YARA_RULE_WEIGHTS (rule : Str) : ℚ :=
  if rule = "Suspicious_Commands".toList then 0.8
  else if rule = "Code_Injection".toList then 0.8
  else if rule = "Network_Activity".toList then 0.6
  else if rule = "Obfuscation_Techniques".toList then 0.6
  else if rule = "AI_Generated_Malware".toList then 0.4
  else 0

/-- The YARA score loop (lines 526-529). -/
def yaraScoreOf (yara_matches : List Str) : ℚ :=
  yara_matches.foldl (fun s rule => max s (YARA_RULE_WEIGHTS rule)) 0

/-- The AI score mapping (lines 531-536); a missing analysis (the empty
dict, falsy in Python) or one carrying an error key scores 0. -/
def aiScoreOf : Option AnalyzeResult → ℚ
  | none => 0
  | some a =>
    if a.error = none then
      let tl := toUpperStr a.threat_level
      if tl = "CRITICAL".toList then 0.9
      else if tl = "HIGH".toList then 0.7
      else if tl = "MEDIUM".toList then 0.5
      else if tl = "LOW".toList then 0.3
      else 0
    else 0

/-- The threshold ladder on the combined score (lines 542-545). -/
def verdictOfScore (combined_score : ℚ) : Str × ℚ :=
  if combined_score ≥ 0.7 then ("MALICIOUS".toList, combined_score)
  else if combined_score ≥ 0.5 then ("SUSPICIOUS".toList, combined_score)
  else if combined_score ≥ 0.3 then ("QUESTIONABLE".toList, combined_score)
  else ("CLEAN".toList, combined_score)

/-- RealTimeMalwareDetector._calculate_final_verdict (lines 523-545):
the classifier score enters with a hard-coded factor of zero (line 539). -/
def calculate_final_verdict (yara_matches : List Str)
    (ai_analysis : Option AnalyzeResult) (tflite_score : ℚ) : Str × ℚ :=
  let weighted_ml := aiScoreOf ai_analysis + tflite_score * 0
  verdictOfScore (max (yaraScoreOf yara_matches) weighted_ml)

/-- Ordering of the four non-error verdict tiers. -/
def verdictTier (v : Str) : Nat :=
  if v = "MALICIOUS".toList then 3
  else if v = "SUSPICIOUS".toList then 2
  else if v = "QUESTIONABLE".toList then 1
  else 0

/-! ## Spec-side fusion definitions, written from the claim wording, to be
compared with the source-side calculate_final_verdict. -/

/-- Spec wording: per-rule severity weight (0.8 for Suspicious_Commands or
Code_Injection, 0.6 for Network_Activity or Obfuscation_Techniques, 0.4
for AI_Generated_Malware, 0 for any other identifier). -/
def ruleSeverityWeightSpec (rule : Str) : ℚ :=
  if rule = "Suspicious_Commands".toList ∨ rule = "Code_Injection".toList then 0.8
  else if rule = "Network_Activity".toList ∨ rule = "Obfuscation_Techniques".toList then 0.6
  else if rule = "AI_Generated_Malware".toList then 0.4
  else 0

/-- Spec wording: the rule score is the maximum per-rule severity weight
over the matched rule identifiers. -/
def ruleScoreSpec (ms : List Str) : ℚ :=
  (ms.map ruleSeverityWeightSpec).foldl max 0

/-- Spec wording: model score maps CRITICAL to 0.9, HIGH to 0.7, MEDIUM to
0.5, LOW to 0.3, anything else or an analysis with error set to 0. -/
def modelScoreSpec : Option AnalyzeResult → ℚ
  | none => 0
  | some a =>
    if a.error.isSome then 0
    else if a.threat_level = "CRITICAL".toList then 0.9
    else if a.threat_level = "HIGH".toList then 0.7
    else if a.threat_level = "MEDIUM".toList then 0.5
    else if a.threat_level = "LOW".toList then 0.3
    else 0

/-- Spec wording: the classifier score enters through a blend weight of zero. -/
def blendWeightSpec : ℚ := 0

/-- Spec wording: combined score is the maximum of the rule score and the
model score plus classifier score times the blend weight. -/
def combinedScoreSpec (ms : List Str) (ai : Option AnalyzeResult)
    (classifier : ℚ) : ℚ :=
  max (ruleScoreSpec ms) (modelScoreSpec ai + classifier * blendWeightSpec)

/-- Spec wording: verdict thresholds on the combined score. -/
def verdictSpecOf (c : ℚ) : Str :=
  if c ≥ 0.7 then "MALICIOUS".toList
  else if c ≥ 0.5 then "SUSPICIOUS".toList
  else if c ≥ 0.3 then "QUESTIONABLE".toList
  else "CLEAN".toList

/-! ## Binary Classifier Adapter (TFLiteDetector.scan, lines 51-65) -/

/-- The fixed-length input window (lines 53-58): zero-pad when short,
truncate when long. -/
def tflite_input_window (data : List Nat) (window : Nat) : List Nat :=
  if data.length < window then data ++ List.replicate (window - data.length) 0
  else data.take window

/-- TFLiteDetector.scan (lines 51-65) with the interpreter's forward pass
as an oracle: normalize the byte window to the unit interval, infer one
scalar score, and derive the label at a strict 0.5 cut. -/
def TFLite_scan (infer : List ℚ → ℚ) (window : Nat) (data : List Nat) : Str × ℚ :=
  let arr := tflite_input_window data window
  let inp := arr.map (fun b => (b : ℚ) / 255)
  let score := infer inp
  (if score > 0.5 then "MALICIOUS".toList else "CLEAN".toList, score)

/-! ## Admission gate and queue (lines 354, 360-371) -/

/-- scannable_extensions (line 354). -/
def scannable_extensions : List Str :=
  strs [".py", ".js", ".php", ".pl", ".rb", ".sh", ".bat", ".cmd", ".ps1",
        ".vbs", ".jar", ".exe", ".dll", ".scr", ".com", ".html", ".htm",
        ".asp", ".aspx", ".jsp"]

/-- The 5MB size ceiling (line 364). -/
def MAX_SCAN_SIZE : Nat := 5 * 1024 * 1024

/-- RealTimeMalwareDetector.is_scannable_file (lines 360-366): the gate
consults only the path suffix and the stat size, never the content; a
failing stat call also rejects. -/
def is_scannable_file (suffix : Str) (statSize : Option Nat) : Bool :=
  if toLowerStr suffix ∈ scannable_extensions then
    match statSize with
    | none => false
    | some size => if size > MAX_SCAN_SIZE then false else true
  else false

/-- A queued scan request (line 371; the enqueue timestamp is a side
channel and omitted). -/
structure ScanRequest where
  file_path : Str
  event_type : Str
deriving DecidableEq

/-- RealTimeMalwareDetector.queue_file_for_scan (lines 368-371). -/
def queue_file_for_scan (queue : List ScanRequest) (file_path suffix : Str)
    (statSize : Option Nat) (event_type : Str) : List ScanRequest :=
  if is_scannable_file suffix statSize then
    queue ++ [{ file_path := file_path, event_type := event_type }]
  else queue

/-! ## Scan orchestration (scan_file_comprehensive, lines 373-513, and the
background worker, lines 566-571) -/

/-- One iteration of the rule-to-threat-level loop (lines 417-423). -/
def yaraThreatStep (t : Nat) (rule : Str) : Nat :=
  if rule = "Suspicious_Commands".toList ∨ rule = "Code_Injection".toList then max t 3
  else if rule = "Network_Activity".toList ∨ rule = "Obfuscation_Techniques".toList then max t 2
  else if rule = "AI_Generated_Malware".toList then max t 1
  else t

/-- The rule-to-threat-level mapping of the scan (lines 416-423). -/
def yaraThreatLevel (yara_matches : List Str) : Nat :=
  yara_matches.foldl yaraThreatStep 0

/-- The always-analyze extension set of the need_ai condition (line 444). -/
def always_analyze_extensions : List Str := strs [".py", ".js", ".php", ".ps1"]

/-- The need_ai condition (lines 441-445): rule threat present, or a
created/modified event, or an always-analyze extension. -/
def need_ai_check (yaraThreat : Nat) (event_type suffixLower : Str) : Bool :=
  decide (0 < yaraThreat ∨ event_type = "created".toList ∨
    event_type = "modified".toList ∨ suffixLower ∈ always_analyze_extensions)

/-- The effectful collaborators of one comprehensive scan: the stat+read of
the target file (lines 395-398, an exception carries its message), the
path suffix, the rule engine result (its adapter never raises,
lines 328-344), the HTTP outcome, and the TFLite inference
(line 479, whose read of the file may raise). -/
structure ScanOracles where
  fileData : Except Str (Nat × Str)
  suffix : Str
  yaraMatches : List Str
  ollama : OllamaOutcome
  tflite : Except Str ℚ

/-- The scan result record (lines 379-391 plus the error field of
line 511); timestamp, hash and recommendation texts are side channels
not referenced by any claim and are omitted. -/
structure ScanResultS where
  file_path : Str
  event_type : Str
  file_size : Nat
  yara_matches : List Str
  ai_analysis : Option AnalyzeResult
  tflite_analysis : Option ℚ
  final_verdict : Str
  confidence : ℚ
  error : Option Str
deriving DecidableEq

/-- The shared statistics mapping (defaultdict(int), line 352). -/
abbrev Stats := Str → Nat

/-- One `self.stats[key] += 1` update (lines 505-506). -/
def bumpStat (stats : Stats) (key : Str) : Stats :=
  fun k => if k = key then stats k + 1 else stats k

/-- RealTimeMalwareDetector.scan_file_comprehensive (lines 373-513): any
exception inside the scan is caught, recorded in the error field with
verdict ERROR, and the statistics counters (touched only at the very end,
lines 505-506) are left untouched. -/
def scan_file_comprehensive (env : ScanOracles) (file_path event_type : Str)
    (stats : Stats) : ScanResultS × Stats :=
  let result0 : ScanResultS :=
    { file_path := file_path, event_type := event_type, file_size := 0,
      yara_matches := [], ai_analysis := none, tflite_analysis := none,
      final_verdict := "CLEAN".toList, confidence := 0, error := none }
  match env.fileData with
  | Except.error e =>
    ({ result0 with error := some e, final_verdict := "ERROR".toList }, stats)
  | Except.ok (size, _content) =>
    let r1 := { result0 with file_size := size, yara_matches := env.yaraMatches }
    let needs := need_ai_check (yaraThreatLevel env.yaraMatches) event_type
      (toLowerStr env.suffix)
    let r2 :=
      if needs then { r1 with ai_analysis := some (analyze_code env.ollama) } else r1
    match env.tflite with
    | Except.error e =>
      ({ r2 with error := some e, final_verdict := "ERROR".toList }, stats)
    | Except.ok score =>
      let vc := calculate_final_verdict env.yaraMatches r2.ai_analysis score
      let r3 := { r2 with
        tflite_analysis := some score
        final_verdict := vc.1
        confidence := vc.2 }
      let stats1 := bumpStat stats ("scanned_".toList ++ event_type)
      let stats2 := bumpStat stats1 ("verdict_".toList ++ toLowerStr vc.1)
      (r3, stats2)

/-- One iteration of the background worker (lines 566-571): pop the oldest
queued item and scan it; the scan itself is a total function, so no
per-scan failure can escape into the loop. -/
def worker_step (env : ScanOracles) (queue : List ScanRequest) (stats : Stats) :
    List ScanRequest × Stats :=
  match queue with
  | [] => ([], stats)
  | item :: rest =>
    (rest, (scan_file_comprehensive env item.file_path item.event_type stats).2)

/-- The five rule identifiers compiled into the embedded YARA rule set
(lines 308-314); the rule engine can report no others. -/
def knownRuleNames : List Str :=
  strs ["AI_Generated_Malware", "Suspicious_Commands", "Network_Activity",
        "Code_Injection", "Obfuscation_Techniques"]

/-- A concrete medium-threat analysis used to exercise the fusion engine. -/
def mediumAnalysis : AnalyzeResult :=
  { error := none, threat_level := "MEDIUM".toList, malicious_indicators := [],
    ai_generated := "UNKNOWN".toList, explanation := "benign utility code".toList,
    recommendation := [], response_time := 1, explanation_is_fallback := false,
    parsing_complete := true }

/-- A concrete partial parse result with every text field already set. -/
def sampleParseResult : ParseResult :=
  { threat_level := "HIGH".toList, malicious_indicators := ["shell".toList],
    ai_generated := "NO".toList, explanation := "abc".toList,
    recommendation := "review".toList, raw_response := [],
    explanation_is_fallback := false, parsing_complete := false }

/-! ## Helper lemmas -/

theorem finalizeSection_parsing_complete (r : ParseResult) (key : SectionKey)
    (acc : List Str) : (finalizeSection r key acc).parsing_complete = r.parsing_complete := by
  cases key <;> rfl

theorem parseLoop_parsing_complete (lines : List Str) :
    ∀ (active : Option SectionKey) (acc : List Str) (r : ParseResult),
      (parseLoop lines active acc r).parsing_complete = r.parsing_complete := by
  induction lines with
  | nil =>
    intro active acc r
    cases active with
    | none => rfl
    | some key =>
      by_cases h : acc = [] <;> simp [parseLoop, h, finalizeSection_parsing_complete]
  | cons line rest ih =>
    intro active acc r
    simp only [parseLoop]
    cases hk : findKeyword (pyStrip line) with
    | some p =>
      obtain ⟨kw, key⟩ := p
      dsimp only
      rw [ih]
      cases active with
      | none => rfl
      | some k =>
        by_cases h : acc = [] <;> simp [h, finalizeSection_parsing_complete]
    | none =>
      cases active with
      | none => exact ih none acc r
      | some k => exact ih (some k) (acc ++ [pyStrip line]) r

theorem primaryParse_parsing_complete (text : Str) :
    (primaryParse text).parsing_complete = false := by
  unfold primaryParse
  dsimp only
  rw [parseLoop_parsing_complete]
  rfl

theorem fallbackExplanationPass_parsing_complete (text : Str) (r : ParseResult) :
    (fallbackExplanationPass text r).parsing_complete = r.parsing_complete := by
  unfold fallbackExplanationPass
  split
  · split
    · rfl
    · dsimp only; split <;> rfl
  · rfl

theorem fallbackThreatPass_parsing_complete (tl : Str) (r : ParseResult) :
    (fallbackThreatPass tl r).parsing_complete = r.parsing_complete := by
  unfold fallbackThreatPass
  split_ifs <;> rfl

theorem fallbackAiGenPass_parsing_complete (tl : Str) (r : ParseResult) :
    (fallbackAiGenPass tl r).parsing_complete = r.parsing_complete := by
  unfold fallbackAiGenPass
  split_ifs <;> rfl

theorem fallback_parse_parsing_complete (text : Str) (r : ParseResult) :
    (fallback_parse text r).parsing_complete = r.parsing_complete := by
  unfold fallback_parse
  rw [fallbackAiGenPass_parsing_complete, fallbackThreatPass_parsing_complete,
    fallbackExplanationPass_parsing_complete]

theorem fallbackExplanationPass_threat (text : Str) (r : ParseResult) :
    (fallbackExplanationPass text r).threat_level = r.threat_level := by
  unfold fallbackExplanationPass
  split
  · split
    · rfl
    · dsimp only; split <;> rfl
  · rfl

theorem fallbackExplanationPass_aiGen (text : Str) (r : ParseResult) :
    (fallbackExplanationPass text r).ai_generated = r.ai_generated := by
  unfold fallbackExplanationPass
  split
  · split
    · rfl
    · dsimp only; split <;> rfl
  · rfl

theorem fallbackExplanationPass_indicators (text : Str) (r : ParseResult) :
    (fallbackExplanationPass text r).malicious_indicators = r.malicious_indicators := by
  unfold fallbackExplanationPass
  split
  · split
    · rfl
    · dsimp only; split <;> rfl
  · rfl

theorem fallbackExplanationPass_recomm (text : Str) (r : ParseResult) :
    (fallbackExplanationPass text r).recommendation = r.recommendation := by
  unfold fallbackExplanationPass
  split
  · split
    · rfl
    · dsimp only; split <;> rfl
  · rfl

theorem fallbackExplanationPass_expl_frame (text : Str) (r : ParseResult)
    (h : r.explanation ≠ []) :
    (fallbackExplanationPass text r).explanation = r.explanation := by
  unfold fallbackExplanationPass
  rw [if_neg h]

theorem fallbackThreatPass_expl (tl : Str) (r : ParseResult) :
    (fallbackThreatPass tl r).explanation = r.explanation := by
  unfold fallbackThreatPass
  split_ifs <;> rfl

theorem fallbackThreatPass_aiGen (tl : Str) (r : ParseResult) :
    (fallbackThreatPass tl r).ai_generated = r.ai_generated := by
  unfold fallbackThreatPass
  split_ifs <;> rfl

theorem fallbackThreatPass_indicators (tl : Str) (r : ParseResult) :
    (fallbackThreatPass tl r).malicious_indicators = r.malicious_indicators := by
  unfold fallbackThreatPass
  split_ifs <;> rfl

theorem fallbackThreatPass_recomm (tl : Str) (r : ParseResult) :
    (fallbackThreatPass tl r).recommendation = r.recommendation := by
  unfold fallbackThreatPass
  split_ifs <;> rfl

theorem fallbackThreatPass_expl_fallback (tl : Str) (r : ParseResult) :
    (fallbackThreatPass tl r).explanation_is_fallback = r.explanation_is_fallback := by
  unfold fallbackThreatPass
  split_ifs <;> rfl

theorem fallbackThreatPass_threat_frame (tl : Str) (r : ParseResult)
    (h : r.threat_level ≠ "UNKNOWN".toList) :
    (fallbackThreatPass tl r).threat_level = r.threat_level := by
  unfold fallbackThreatPass
  rw [if_neg h]

theorem fallbackAiGenPass_threat (tl : Str) (r : ParseResult) :
    (fallbackAiGenPass tl r).threat_level = r.threat_level := by
  unfold fallbackAiGenPass
  split_ifs <;> rfl

theorem fallbackAiGenPass_expl (tl : Str) (r : ParseResult) :
    (fallbackAiGenPass tl r).explanation = r.explanation := by
  unfold fallbackAiGenPass
  split_ifs <;> rfl

theorem fallbackAiGenPass_indicators (tl : Str) (r : ParseResult) :
    (fallbackAiGenPass tl r).malicious_indicators = r.malicious_indicators := by
  unfold fallbackAiGenPass
  split_ifs <;> rfl

theorem fallbackAiGenPass_recomm (tl : Str) (r : ParseResult) :
    (fallbackAiGenPass tl r).recommendation = r.recommendation := by
  unfold fallbackAiGenPass
  split_ifs <;> rfl

theorem fallbackAiGenPass_expl_fallback (tl : Str) (r : ParseResult) :
    (fallbackAiGenPass tl r).explanation_is_fallback = r.explanation_is_fallback := by
  unfold fallbackAiGenPass
  split_ifs <;> rfl

theorem fallbackAiGenPass_aiGen_frame (tl : Str) (r : ParseResult)
    (h : r.ai_generated ≠ "UNKNOWN".toList) :
    (fallbackAiGenPass tl r).ai_generated = r.ai_generated := by
  unfold fallbackAiGenPass
  rw [if_neg h]

/-! ## Claim C3 -/

/-- C3 counterexample: on a connection failure the Model Client records the
error but fills the explanation with a non-empty diagnostic message, so the
claimed invariant (error set implies empty explanation) fails. -/
theorem claim3_error_explanation_counterexample :
    (analyze_code OllamaOutcome.connError).error.isSome = true ∧
    (analyze_code OllamaOutcome.connError).explanation ≠ [] := by
  constructor
  · rfl
  · decide

/-- C3 amended: whenever the Model Client's analyze operation returns with
the error field set, the threat level is UNKNOWN and the explanation is a
non-empty diagnostic message (not empty, as the claim stated); in the
connection-failure case the recorded elapsed time is zero. -/
theorem claim3_error_invariant_amended (o : OllamaOutcome) :
    ((analyze_code o).error.isSome = true →
      (analyze_code o).threat_level = "UNKNOWN".toList ∧
      (analyze_code o).explanation ≠ []) ∧
    (analyze_code OllamaOutcome.connError).response_time = 0 := by
  refine ⟨?_, rfl⟩
  intro h
  cases o with
  | success body elapsed => simp [analyze_code] at h
  | badStatus status elapsed =>
    refine ⟨rfl, ?_⟩
    simp [analyze_code]
  | connError => exact ⟨rfl, by decide⟩
  | otherExc msg elapsed =>
    refine ⟨rfl, ?_⟩
    simp [analyze_code]

/-- Witness for the amended C3 at a concrete bad-status outcome. -/
theorem claim3_error_invariant_amended_witness :
    (analyze_code (OllamaOutcome.badStatus "404".toList 2)).threat_level = "UNKNOWN".toList ∧
    (analyze_code (OllamaOutcome.badStatus "404".toList 2)).explanation ≠ [] :=
  (claim3_error_invariant_amended (OllamaOutcome.badStatus "404".toList 2)).1 rfl

/-! ## Claim C7 -/

/-- C7: the admission gate admits a file exactly when its lowercased
extension is in the allow-set and its stat size does not exceed the 5MB
ceiling; a disallowed extension is rejected regardless of size (even with
no readable size), an over-ceiling file is rejected regardless of
extension, and a rejected file is never enqueued (an admitted one is
appended to the queue).  The gate consumes only the suffix and the stat
size, never the file content. -/
theorem claim7_admission_gate (suffix : Str) (size : Nat)
    (queue : List ScanRequest) (fp ev : Str) :
    (is_scannable_file suffix (some size) = true ↔
      toLowerStr suffix ∈ scannable_extensions ∧ size ≤ MAX_SCAN_SIZE) ∧
    (toLowerStr suffix ∉ scannable_extensions →
      ∀ sz : Option Nat, is_scannable_file suffix sz = false) ∧
    (MAX_SCAN_SIZE < size → is_scannable_file suffix (some size) = false) ∧
    (is_scannable_file suffix (some size) = false →
      queue_file_for_scan queue fp suffix (some size) ev = queue) ∧
    (is_scannable_file suffix (some size) = true →
      queue_file_for_scan queue fp suffix (some size) ev =
        queue ++ [{ file_path := fp, event_type := ev }]) := by
  unfold queue_file_for_scan
  by_cases hm : toLowerStr suffix ∈ scannable_extensions
  · by_cases hs : size > MAX_SCAN_SIZE
    · simp [is_scannable_file, hm, hs]
    · simp [is_scannable_file, hm, hs]
      omega
  · simp [is_scannable_file, hm]

/-- Witness for C7: a 20MB file with an allow-listed extension is rejected;
a 10KB file with a disallowed extension is rejected and not enqueued. -/
theorem claim7_admission_gate_witness :
    is_scannable_file ".py".toList (some (20 * 1024 * 1024)) = false ∧
    is_scannable_file ".xyz".toList (some (10 * 1024)) = false ∧
    queue_file_for_scan [] "a.py".toList ".py".toList (some (20 * 1024 * 1024))
      "manual".toList = [] := by
  refine ⟨?_, ?_, ?_⟩
  · exact (claim7_admission_gate ".py".toList (20 * 1024 * 1024) [] "a.py".toList
      "manual".toList).2.2.1 (by norm_num [MAX_SCAN_SIZE])
  · exact (claim7_admission_gate ".xyz".toList (10 * 1024) [] "a.xyz".toList
      "manual".toList).2.1 (by decide) (some (10 * 1024))
  · exact (claim7_admission_gate ".py".toList (20 * 1024 * 1024) [] "a.py".toList
      "manual".toList).2.2.2.1
      ((claim7_admission_gate ".py".toList (20 * 1024 * 1024) [] "a.py".toList
        "manual".toList).2.2.1 (by norm_num [MAX_SCAN_SIZE]))

/-! ## Claim C8 -/

/-- C8: if reading the target file raises, or the classifier step raises,
the comprehensive scan returns a result with verdict ERROR and the
exception message in its error field, the worker loop step still returns
normally, and the shared statistics mapping is left exactly as it was
(counters are touched only at the successful end of a scan). -/
theorem claim8_scan_error_containment (env : ScanOracles) (fp ev msg : Str)
    (stats : Stats) (rest : List ScanRequest) :
    (env.fileData = Except.error msg →
      (scan_file_comprehensive env fp ev stats).1.final_verdict = "ERROR".toList ∧
      (scan_file_comprehensive env fp ev stats).1.error = some msg ∧
      (scan_file_comprehensive env fp ev stats).2 = stats ∧
      worker_step env ({ file_path := fp, event_type := ev } :: rest) stats =
        (rest, stats)) ∧
    (∀ d : Nat × Str, env.fileData = Except.ok d → env.tflite = Except.error msg →
      (scan_file_comprehensive env fp ev stats).1.final_verdict = "ERROR".toList ∧
      (scan_file_comprehensive env fp ev stats).1.error = some msg ∧
      (scan_file_comprehensive env fp ev stats).2 = stats) := by
  constructor
  · intro h
    refine ⟨?_, ?_, ?_, ?_⟩ <;>
      simp [scan_file_comprehensive, worker_step, h]
  · rintro ⟨size, content⟩ hok htf
    refine ⟨?_, ?_, ?_⟩ <;>
      simp [scan_file_comprehensive, hok, htf]

/-- Witness for C8 at a concrete unreadable file. -/
theorem claim8_scan_error_containment_witness :
    (scan_file_comprehensive
      { fileData := Except.error "Permission denied".toList, suffix := ".py".toList,
        yaraMatches := [], ollama := OllamaOutcome.connError, tflite := Except.ok 0 }
      "x.py".toList "manual".toList (fun _ => 0)).1.final_verdict = "ERROR".toList ∧
    (scan_file_comprehensive
      { fileData := Except.error "Permission denied".toList, suffix := ".py".toList,
        yaraMatches := [], ollama := OllamaOutcome.connError, tflite := Except.ok 0 }
      "x.py".toList "manual".toList (fun _ => 0)).2 = (fun _ => 0) :=
  ⟨((claim8_scan_error_containment
      { fileData := Except.error "Permission denied".toList, suffix := ".py".toList,
        yaraMatches := [], ollama := OllamaOutcome.connError, tflite := Except.ok 0 }
      "x.py".toList "manual".toList "Permission denied".toList (fun _ => 0) []).1 rfl).1,
   ((claim8_scan_error_containment
      { fileData := Except.error "Permission denied".toList, suffix := ".py".toList,
        yaraMatches := [], ollama := OllamaOutcome.connError, tflite := Except.ok 0 }
      "x.py".toList "manual".toList "Permission denied".toList (fun _ => 0) []).1 rfl).2.2.1⟩

/-! ## Claim C10 -/

/-- C10: the binary classifier adapter labels a file MALICIOUS exactly when
the scalar score is strictly greater than 0.5; a score of exactly 0.5
yields the label CLEAN. -/
theorem claim10_classifier_label_cut (infer : List ℚ → ℚ) (window : Nat)
    (data : List Nat) :
    ((TFLite_scan infer window data).1 = "MALICIOUS".toList ↔
      (TFLite_scan infer window data).2 > 0.5) ∧
    ((TFLite_scan infer window data).2 = 0.5 →
      (TFLite_scan infer window data).1 = "CLEAN".toList) := by
  unfold TFLite_scan
  dsimp only
  by_cases h : infer ((tflite_input_window data window).map (fun b => (b : ℚ) / 255)) > 0.5
  · rw [if_pos h]
    refine ⟨⟨fun _ => h, fun _ => rfl⟩, ?_⟩
    intro he
    rw [he] at h
    norm_num at h
  · rw [if_neg h]
    refine ⟨⟨fun hc => absurd hc (by decide), fun hgt => absurd hgt h⟩, fun _ => rfl⟩

/-- Witness for C10 at the constant score one half. -/
theorem claim10_classifier_label_cut_witness :
    (TFLite_scan (fun _ => (0.5 : ℚ)) 4 []).1 = "CLEAN".toList :=
  (claim10_classifier_label_cut (fun _ => (0.5 : ℚ)) 4 []).2 rfl

/-! ## Fusion lemmas and claims C1, C5, C6 -/

theorem ruleSeverityWeightSpec_eq (rule : Str) :
    ruleSeverityWeightSpec rule = YARA_RULE_WEIGHTS rule := by
  unfold ruleSeverityWeightSpec YARA_RULE_WEIGHTS
  split_ifs <;> first | rfl | tauto

theorem ruleScoreSpec_eq_yaraScoreOf (ms : List Str) :
    ruleScoreSpec ms = yaraScoreOf ms := by
  unfold ruleScoreSpec yaraScoreOf
  rw [List.foldl_map]
  simp only [ruleSeverityWeightSpec_eq]

theorem modelScoreSpec_eq_aiScoreOf (ai : Option AnalyzeResult)
    (hupper : ∀ a, ai = some a → toUpperStr a.threat_level = a.threat_level) :
    modelScoreSpec ai = aiScoreOf ai := by
  cases ai with
  | none => rfl
  | some a =>
    have hu := hupper a rfl
    cases herr : a.error with
    | some e => simp [modelScoreSpec, aiScoreOf, herr]
    | none =>
      simp only [modelScoreSpec, aiScoreOf, herr, Option.isSome_none,
        Bool.false_eq_true, if_false, if_pos]
      rw [hu]

theorem verdictOfScore_pair (c : ℚ) : verdictOfScore c = (verdictSpecOf c, c) := by
  unfold verdictOfScore verdictSpecOf
  split_ifs <;> rfl

theorem verdictOfScore_conf (c : ℚ) : (verdictOfScore c).2 = c := by
  unfold verdictOfScore
  split_ifs <;> rfl

theorem yaraScoreOf_nil : yaraScoreOf [] = 0 := rfl

theorem yaraScoreOf_suspicious :
    yaraScoreOf ["Suspicious_Commands".toList] = 0.8 := by
  have hw : YARA_RULE_WEIGHTS "Suspicious_Commands".toList = 0.8 := by
    unfold YARA_RULE_WEIGHTS
    rw [if_pos rfl]
  simp only [yaraScoreOf, List.foldl, hw]
  exact max_eq_right (by norm_num)

theorem aiScoreOf_medium : aiScoreOf (some mediumAnalysis) = 0.5 := by
  simp only [aiScoreOf, mediumAnalysis, if_true, ite_true]
  rw [if_neg (by decide), if_neg (by decide), if_pos (by decide)]

/-- C1: the fusion engine computes exactly the spec-side combination: rule
score = max severity weight over matched rules, model score from the fixed
threat-level table (0 on error or anything unrecognized), combined score =
max of rule score and model score plus classifier score times the zero
blend weight, verdict by the fixed thresholds, confidence = combined
score; and in particular rule score 0.8 with model score 0.5 fuses to
verdict MALICIOUS with confidence 0.8 (max, not sum).  The threat-level
hypothesis records that ModelAnalysis threat levels are uppercase, as the
parser guarantees. -/
theorem claim1_fusion_spec (ms : List Str) (ai : Option AnalyzeResult) (tf : ℚ)
    (hupper : ∀ a, ai = some a → toUpperStr a.threat_level = a.threat_level) :
    calculate_final_verdict ms ai tf =
      (verdictSpecOf (combinedScoreSpec ms ai tf), combinedScoreSpec ms ai tf) ∧
    calculate_final_verdict ["Suspicious_Commands".toList] (some mediumAnalysis) tf =
      ("MALICIOUS".toList, 0.8) := by
  constructor
  · simp only [calculate_final_verdict, combinedScoreSpec, blendWeightSpec]
    rw [ruleScoreSpec_eq_yaraScoreOf, modelScoreSpec_eq_aiScoreOf ai hupper,
      verdictOfScore_pair]
  · simp only [calculate_final_verdict]
    rw [yaraScoreOf_suspicious, aiScoreOf_medium, mul_zero, add_zero]
    rw [show max (0.8 : ℚ) 0.5 = 0.8 from by norm_num]
    unfold verdictOfScore
    rw [if_pos (by norm_num : (0.8 : ℚ) ≥ 0.7)]

/-- Witness for C1 at a concrete medium-threat analysis and classifier
score one half. -/
theorem claim1_fusion_spec_witness :
    calculate_final_verdict ["Suspicious_Commands".toList] (some mediumAnalysis) (1 / 2) =
      (verdictSpecOf (combinedScoreSpec ["Suspicious_Commands".toList]
        (some mediumAnalysis) (1 / 2)),
       combinedScoreSpec ["Suspicious_Commands".toList] (some mediumAnalysis) (1 / 2)) :=
  (claim1_fusion_spec ["Suspicious_Commands".toList] (some mediumAnalysis) (1 / 2)
    (fun a h => by cases h; decide)).1

theorem verdictTier_mono (c1 c2 : ℚ) (h : c1 ≤ c2) :
    verdictTier (verdictOfScore c1).1 ≤ verdictTier (verdictOfScore c2).1 := by
  unfold verdictOfScore
  split_ifs <;> dsimp only <;> first | decide | (exfalso; linarith)

/-- C5: fusion is monotonic in the rule signal: for a fixed model analysis
and classifier score, a rule match set with a greater-or-equal maximum
severity weight never decreases the verdict tier (CLEAN < QUESTIONABLE <
SUSPICIOUS < MALICIOUS) and never decreases the confidence. -/
theorem claim5_fusion_monotone (m1 m2 : List Str) (ai : Option AnalyzeResult)
    (tf : ℚ) (h : yaraScoreOf m1 ≤ yaraScoreOf m2) :
    verdictTier (calculate_final_verdict m1 ai tf).1 ≤
      verdictTier (calculate_final_verdict m2 ai tf).1 ∧
    (calculate_final_verdict m1 ai tf).2 ≤ (calculate_final_verdict m2 ai tf).2 := by
  have hc : max (yaraScoreOf m1) (aiScoreOf ai + tf * 0) ≤
      max (yaraScoreOf m2) (aiScoreOf ai + tf * 0) := max_le_max h le_rfl
  constructor
  · simpa only [calculate_final_verdict] using verdictTier_mono _ _ hc
  · simp only [calculate_final_verdict, verdictOfScore_conf]
    exact hc

/-- Witness for C5: going from no matches to a 0.8-weight match. -/
theorem claim5_fusion_monotone_witness :
    verdictTier (calculate_final_verdict [] none 0).1 ≤
      verdictTier (calculate_final_verdict ["Suspicious_Commands".toList] none 0).1 ∧
    (calculate_final_verdict [] none 0).2 ≤
      (calculate_final_verdict ["Suspicious_Commands".toList] none 0).2 :=
  claim5_fusion_monotone [] ["Suspicious_Commands".toList] none 0
    (by rw [yaraScoreOf_nil, yaraScoreOf_suspicious]; norm_num)

theorem yaraThreatStep_ge (t : Nat) (rule : Str) : t ≤ yaraThreatStep t rule := by
  unfold yaraThreatStep
  split_ifs <;> first | exact le_max_left _ _ | exact le_rfl

theorem foldl_yaraThreatStep_ge (ms : List Str) :
    ∀ t : Nat, t ≤ ms.foldl yaraThreatStep t := by
  induction ms with
  | nil => intro t; simp
  | cons r rest ih =>
    intro t
    exact le_trans (yaraThreatStep_ge t r) (ih (yaraThreatStep t r))

theorem yaraThreatStep_known_pos (t : Nat) (rule : Str)
    (h : rule ∈ knownRuleNames) : 0 < yaraThreatStep t rule := by
  have hge : ∀ n : Nat, 0 < n → 0 < max t n :=
    fun n hn => lt_of_lt_of_le hn (le_max_right t n)
  simp only [knownRuleNames, strs, List.map, List.mem_cons, List.not_mem_nil,
    or_false] at h
  rcases h with h | h | h | h | h <;> subst h <;> unfold yaraThreatStep
  · rw [if_neg (by decide), if_neg (by decide), if_pos (by decide)]
    exact hge 1 (by norm_num)
  · rw [if_pos (by decide)]
    exact hge 3 (by norm_num)
  · rw [if_neg (by decide), if_pos (by decide)]
    exact hge 2 (by norm_num)
  · rw [if_pos (by decide)]
    exact hge 3 (by norm_num)
  · rw [if_neg (by decide), if_pos (by decide)]
    exact hge 2 (by norm_num)

theorem yaraThreatLevel_pos_iff (ms : List Str)
    (hr : ∀ r ∈ ms, r ∈ knownRuleNames) :
    0 < yaraThreatLevel ms ↔ ms ≠ [] := by
  cases ms with
  | nil => simp [yaraThreatLevel]
  | cons r rest =>
    simp only [yaraThreatLevel, List.foldl_cons, ne_eq, reduceCtorEq,
      not_false_eq_true, iff_true]
    have h0 : 0 < yaraThreatStep 0 r :=
      yaraThreatStep_known_pos 0 r (hr r (List.mem_cons_self r rest))
    exact lt_of_lt_of_le h0 (foldl_yaraThreatStep_ge rest (yaraThreatStep 0 r))

/-- C6: in a comprehensive scan whose file read succeeds, the model
analysis step runs exactly when at least one rule matched, or the event
type is created or modified, or the lowercased extension is in the
always-analyze set; otherwise the ai_analysis field stays empty.  The
hypothesis that matched identifiers come from the compiled rule set
reflects that the embedded YARA source defines exactly those five rules. -/
theorem claim6_model_invocation_condition (env : ScanOracles) (fp ev : Str)
    (stats : Stats) (d : Nat × Str) (hok : env.fileData = Except.ok d)
    (hr : ∀ r ∈ env.yaraMatches, r ∈ knownRuleNames) :
    ((scan_file_comprehensive env fp ev stats).1.ai_analysis.isSome = true ↔
      (env.yaraMatches ≠ [] ∨ ev = "created".toList ∨ ev = "modified".toList ∨
        toLowerStr env.suffix ∈ always_analyze_extensions)) := by
  obtain ⟨size, content⟩ := d
  have key : (scan_file_comprehensive env fp ev stats).1.ai_analysis =
      (if need_ai_check (yaraThreatLevel env.yaraMatches) ev (toLowerStr env.suffix)
       then some (analyze_code env.ollama) else none) := by
    simp only [scan_file_comprehensive, hok]
    cases htf : env.tflite with
    | error e => dsimp only; split <;> rfl
    | ok score => dsimp only; split <;> rfl
  rw [key]
  have h1 : (if need_ai_check (yaraThreatLevel env.yaraMatches) ev
        (toLowerStr env.suffix)
      then some (analyze_code env.ollama) else none).isSome = true ↔
      need_ai_check (yaraThreatLevel env.yaraMatches) ev (toLowerStr env.suffix) = true := by
    split <;> simp_all
  rw [h1]
  simp only [need_ai_check, decide_eq_true_eq]
  rw [yaraThreatLevel_pos_iff env.yaraMatches hr]

/-- Witness for C6: a manual scan of a low-signal .txt file with no rule
matches leaves ai_analysis empty. -/
theorem claim6_model_invocation_condition_witness :
    ((scan_file_comprehensive
      { fileData := Except.ok (3, "abc".toList), suffix := ".txt".toList,
        yaraMatches := [], ollama := OllamaOutcome.connError, tflite := Except.ok 0 }
      "notes.txt".toList "manual".toList (fun _ => 0)).1.ai_analysis.isSome = true ↔
      (([] : List Str) ≠ [] ∨ "manual".toList = "created".toList ∨
        "manual".toList = "modified".toList ∨
        toLowerStr ".txt".toList ∈ always_analyze_extensions)) :=
  claim6_model_invocation_condition
    { fileData := Except.ok (3, "abc".toList), suffix := ".txt".toList,
      yaraMatches := [], ollama := OllamaOutcome.connError, tflite := Except.ok 0 }
    "notes.txt".toList "manual".toList (fun _ => 0) (3, "abc".toList) rfl
    (by intro r h; cases h)

/-! ## Parser claims C2, C9, C4 -/

/-- C2: the parsed result is marked parsing_complete exactly when the
primary pass produced a non-empty explanation and a non-UNKNOWN threat
level; whenever that condition fails, the parse result is the fallback
pass applied to the primary partial result; and the fallback pass only
augments: an explanation already non-empty, a threat level already not
UNKNOWN, and an AI-generated field already not UNKNOWN are returned
unchanged, and the indicator list and recommendation are never touched. -/
theorem claim2_parsing_complete_and_fallback_augments (text : Str) (r : ParseResult) :
    ((parse_ollama_response text).parsing_complete = true ↔
      ((primaryParse text).explanation ≠ [] ∧
        (primaryParse text).threat_level ≠ "UNKNOWN".toList)) ∧
    (((primaryParse text).explanation = [] ∨
        (primaryParse text).threat_level = "UNKNOWN".toList) →
      parse_ollama_response text = fallback_parse text (primaryParse text)) ∧
    (r.explanation ≠ [] → (fallback_parse text r).explanation = r.explanation) ∧
    (r.threat_level ≠ "UNKNOWN".toList →
      (fallback_parse text r).threat_level = r.threat_level) ∧
    (r.ai_generated ≠ "UNKNOWN".toList →
      (fallback_parse text r).ai_generated = r.ai_generated) ∧
    (fallback_parse text r).malicious_indicators = r.malicious_indicators ∧
    (fallback_parse text r).recommendation = r.recommendation := by
  refine ⟨?_, ?_, ?_, ?_, ?_, ?_, ?_⟩
  · by_cases ht : text = []
    · subst ht
      constructor
      · intro hc
        exact absurd hc (by decide)
      · intro hce
        exact absurd (by decide : (primaryParse ([] : Str)).explanation = []) hce.1
    · simp only [parse_ollama_response]
      rw [if_neg ht]
      by_cases hc : (primaryParse text).explanation ≠ [] ∧
          (primaryParse text).threat_level ≠ "UNKNOWN".toList
      · rw [if_pos hc]
        exact iff_of_true rfl hc
      · rw [if_neg hc]
        have hf : (fallback_parse text (primaryParse text)).parsing_complete = false := by
          rw [fallback_parse_parsing_complete, primaryParse_parsing_complete]
        rw [hf]
        exact iff_of_false (by simp) hc
  · intro hd
    by_cases ht : text = []
    · subst ht
      decide
    · simp only [parse_ollama_response]
      have hn : ¬((primaryParse text).explanation ≠ [] ∧
          (primaryParse text).threat_level ≠ "UNKNOWN".toList) := by
        rcases hd with hd | hd
        · exact fun hcon => hcon.1 hd
        · exact fun hcon => hcon.2 hd
      rw [if_neg ht, if_neg hn]
  · intro he
    unfold fallback_parse
    rw [fallbackAiGenPass_expl, fallbackThreatPass_expl,
      fallbackExplanationPass_expl_frame text r he]
  · intro hth
    unfold fallback_parse
    have h1 := fallbackExplanationPass_threat text r
    rw [fallbackAiGenPass_threat,
      fallbackThreatPass_threat_frame _ _ (by rw [h1]; exact hth), h1]
  · intro hai
    unfold fallback_parse
    have h1 : (fallbackThreatPass (toLowerStr text)
        (fallbackExplanationPass text r)).ai_generated = r.ai_generated := by
      rw [fallbackThreatPass_aiGen, fallbackExplanationPass_aiGen]
    rw [fallbackAiGenPass_aiGen_frame _ _ (by rw [h1]; exact hai), h1]
  · unfold fallback_parse
    rw [fallbackAiGenPass_indicators, fallbackThreatPass_indicators,
      fallbackExplanationPass_indicators]
  · unfold fallback_parse
    rw [fallbackAiGenPass_recomm, fallbackThreatPass_recomm,
      fallbackExplanationPass_recomm]

/-- Witness for C2 on a sectionless text and a partial result with every
text field already set. -/
theorem claim2_parsing_complete_and_fallback_augments_witness :
    parse_ollama_response "no sections here".toList =
      fallback_parse "no sections here".toList
        (primaryParse "no sections here".toList) ∧
    (fallback_parse "no sections here".toList sampleParseResult).explanation =
      sampleParseResult.explanation ∧
    (fallback_parse "no sections here".toList sampleParseResult).threat_level =
      sampleParseResult.threat_level :=
  ⟨(claim2_parsing_complete_and_fallback_augments "no sections here".toList
      sampleParseResult).2.1 (Or.inl (by decide)),
   (claim2_parsing_complete_and_fallback_augments "no sections here".toList
      sampleParseResult).2.2.1 (by decide),
   (claim2_parsing_complete_and_fallback_augments "no sections here".toList
      sampleParseResult).2.2.2.1 (by decide)⟩

theorem fallbackThreatPass_mem (tl : Str) (r : ParseResult)
    (h : r.threat_level = "UNKNOWN".toList) :
    (fallbackThreatPass tl r).threat_level ∈
      strs ["LOW", "MEDIUM", "HIGH", "CRITICAL", "UNKNOWN"] := by
  unfold fallbackThreatPass
  rw [if_pos h]
  split_ifs <;> first | (dsimp only; decide) | (rw [h]; decide)

/-- C9 counterexample: a THREAT_LEVEL section with arbitrary content is
copied through uppercased, so the parsed threat level can lie outside
the five-value set (here BANANA). -/
theorem claim9_threat_level_counterexample :
    (parse_ollama_response "THREAT_LEVEL: BANANA".toList).threat_level ∉
      strs ["LOW", "MEDIUM", "HIGH", "CRITICAL", "UNKNOWN"] := by
  decide

/-- C9 amended: whenever the primary pass leaves the threat level UNKNOWN,
the final threat level is one of LOW, MEDIUM, HIGH, CRITICAL, UNKNOWN;
when the primary pass extracted a threat level, the final threat level is
exactly that (uppercased) extracted content, which can lie outside the
five-value set. -/
theorem claim9_threat_level_amended (text : Str) :
    ((primaryParse text).threat_level = "UNKNOWN".toList →
      (parse_ollama_response text).threat_level ∈
        strs ["LOW", "MEDIUM", "HIGH", "CRITICAL", "UNKNOWN"]) ∧
    ((primaryParse text).threat_level ≠ "UNKNOWN".toList →
      (parse_ollama_response text).threat_level = (primaryParse text).threat_level) := by
  constructor
  · intro hu
    by_cases ht : text = []
    · subst ht
      decide
    · simp only [parse_ollama_response]
      rw [if_neg ht, if_neg (fun hcon => hcon.2 hu)]
      unfold fallback_parse
      rw [fallbackAiGenPass_threat]
      exact fallbackThreatPass_mem _ _
        (by rw [fallbackExplanationPass_threat]; exact hu)
  · intro hn
    by_cases ht : text = []
    · refine absurd ?_ hn
      subst ht
      decide
    · simp only [parse_ollama_response]
      rw [if_neg ht]
      by_cases hc : (primaryParse text).explanation ≠ [] ∧
          (primaryParse text).threat_level ≠ "UNKNOWN".toList
      · rw [if_pos hc]
      · rw [if_neg hc]
        unfold fallback_parse
        have h1 := fallbackExplanationPass_threat text (primaryParse text)
        rw [fallbackAiGenPass_threat,
          fallbackThreatPass_threat_frame _ _ (by rw [h1]; exact hn), h1]

/-- Witness for the amended C9 on a keyword-free text. -/
theorem claim9_threat_level_amended_witness :
    (parse_ollama_response "hello".toList).threat_level ∈
      strs ["LOW", "MEDIUM", "HIGH", "CRITICAL", "UNKNOWN"] :=
  (claim9_threat_level_amended "hello".toList).1 (by decide)

theorem tryExplKeywords_length (text : Str) (kws : List Str) :
    ∀ e : Str, tryExplKeywords text kws = some e → 20 < e.length := by
  induction kws with
  | nil =>
    intro e h
    simp [tryExplKeywords] at h
  | cons kw rest ih =>
    intro e h
    simp only [tryExplKeywords] at h
    cases hf : findSub kw (toLowerStr text) with
    | none =>
      rw [hf] at h
      exact ih e h
    | some startIndex =>
      rw [hf] at h
      dsimp only at h
      split at h
      · injection h with h2
        subst h2
        assumption
      · exact ih e h

theorem mem_dropWhile_of_not (l : Str) (c : Char)
    (hc : c ∈ l) (hp : isPySpace c = false) : c ∈ l.dropWhile isPySpace := by
  have h2 := List.takeWhile_append_dropWhile isPySpace l
  rw [← h2] at hc
  rcases List.mem_append.mp hc with hmem | hmem
  · have h3 := List.mem_takeWhile_imp hmem
    rw [hp] at h3
    exact absurd h3 (by simp)
  · exact hmem

theorem pyStrip_ne_nil (l : Str) (c : Char) (hc : c ∈ l)
    (hp : isPySpace c = false) : pyStrip l ≠ [] := by
  intro h
  unfold pyStrip at h
  rw [List.reverse_eq_nil_iff] at h
  have h1 : c ∈ (l.dropWhile isPySpace).reverse :=
    List.mem_reverse.mpr (mem_dropWhile_of_not l c hc hp)
  have h2 : c ∈ ((l.dropWhile isPySpace).reverse).dropWhile isPySpace :=
    mem_dropWhile_of_not _ c h1 hp
  rw [h] at h2
  exact absurd h2 (List.not_mem_nil c)

theorem collectSentences_mem_dot (sentences : List Str) :
    ∀ count : Nat, count ≤ 4 →
      (∃ s ∈ sentences, skipSentence s = false ∧ 15 < (pyStrip s).length) →
      ('.' : Char) ∈ collectSentences sentences count := by
  induction sentences with
  | nil =>
    intro count _ hex
    rcases hex with ⟨s, hs, _⟩
    exact absurd hs (List.not_mem_nil s)
  | cons s rest ih =>
    intro count hcount hex
    by_cases hsk : skipSentence s = true
    · have heq : collectSentences (s :: rest) count = collectSentences rest count := by
        simp only [collectSentences, hsk, if_true, ite_true]
      rw [heq]
      apply ih count hcount
      rcases hex with ⟨w, hw, hwskip, hwlen⟩
      rcases List.mem_cons.mp hw with hws | hw2
      · subst hws
        rw [hsk] at hwskip
        exact absurd hwskip (by decide)
      · exact ⟨w, hw2, hwskip, hwlen⟩
    · by_cases hq : 15 < (pyStrip s).length
      · have heq : collectSentences (s :: rest) count =
            (pyStrip s ++ ('.' :: ' ' :: [])) ++
              (if count + 1 ≥ 5 then [] else collectSentences rest (count + 1)) := by
          simp only [collectSentences, hsk, hq, if_true, ite_true, if_false, ite_false,
            Bool.false_eq_true]
        rw [heq]
        exact List.mem_append.mpr (Or.inl (List.mem_append.mpr (Or.inr (by decide))))
      · have hc5 : ¬ count ≥ 5 := by omega
        have heq : collectSentences (s :: rest) count = collectSentences rest count := by
          simp only [collectSentences, hsk, hq, hc5, if_false, ite_false, Bool.false_eq_true]
        rw [heq]
        apply ih count hcount
        rcases hex with ⟨w, hw, hwskip, hwlen⟩
        rcases List.mem_cons.mp hw with hws | hw2
        · subst hws
          exact absurd hwlen hq
        · exact ⟨w, hw2, hwskip, hwlen⟩

/-- C4: when the primary pass leaves the explanation empty, the fallback
(a) accepts the keyword-recovered explanation exactly when the stripped
text after the first matching keyword, cut at the earliest following
section keyword, is longer than 20 characters, marking it
fallback-derived; (b) otherwise builds the explanation from at most five
substantial sentences (stripped length over 15, prompt-echo sentences
skipped), marking it fallback-derived; hence any text containing a
substantial non-echo sentence yields a non-empty explanation. -/
theorem claim4_fallback_explanation (text : Str) (r : ParseResult)
    (h : r.explanation = []) :
    (∀ e : Str, tryExplKeywords text explanation_keywords = some e →
      (fallbackExplanationPass text r).explanation = e ∧ 20 < e.length ∧
      (fallbackExplanationPass text r).explanation_is_fallback = true) ∧
    (tryExplKeywords text explanation_keywords = none →
      (fallbackExplanationPass text r).explanation =
        pyStrip (collectSentences (splitOnChar '.' text) 0) ∧
      ((fallbackExplanationPass text r).explanation ≠ [] →
        (fallbackExplanationPass text r).explanation_is_fallback = true)) ∧
    ((∃ s ∈ splitOnChar '.' text, skipSentence s = false ∧ 15 < (pyStrip s).length) →
      (fallbackExplanationPass text r).explanation ≠ []) := by
  unfold fallbackExplanationPass
  rw [if_pos h]
  cases htry : tryExplKeywords text explanation_keywords with
  | some e0 =>
    dsimp only
    have hlen : 20 < e0.length := tryExplKeywords_length text explanation_keywords e0 htry
    refine ⟨?_, ?_, ?_⟩
    · intro e he
      injection he with he2
      subst he2
      exact ⟨rfl, hlen, rfl⟩
    · intro hnone
      exact absurd hnone (by simp)
    · intro _
      show e0 ≠ []
      intro hnil
      rw [hnil] at hlen
      simp at hlen
  | none =>
    dsimp only
    refine ⟨?_, ?_, ?_⟩
    · intro e he
      exact absurd he (by simp)
    · intro _
      by_cases htemp : collectSentences (splitOnChar '.' text) 0 = []
      · rw [if_neg (by rw [htemp]; simp)]
        rw [h, htemp]
        exact ⟨rfl, fun hne => absurd rfl hne⟩
      · rw [if_pos htemp]
        exact ⟨rfl, fun _ => rfl⟩
    · intro hex
      have hdot : ('.' : Char) ∈ collectSentences (splitOnChar '.' text) 0 :=
        collectSentences_mem_dot (splitOnChar '.' text) 0 (by omega) hex
      have htemp : collectSentences (splitOnChar '.' text) 0 ≠ [] :=
        List.ne_nil_of_mem hdot
      rw [if_pos htemp]
      exact pyStrip_ne_nil _ '.' hdot (by decide)

/-- Witness for C4 on a keyword-free text with one substantial sentence. -/
theorem claim4_fallback_explanation_witness :
    (fallbackExplanationPass
        "This file launches a reverse shell to a remote host".toList
        (initResult [])).explanation ≠ [] :=
  (claim4_fallback_explanation
      "This file launches a reverse shell to a remote host".toList
      (initResult []) rfl).2.2 (by decide)
